import Mathlib

/-!
Shallow embedding of the moov-io iso8583 connection client (src/client.go)
and verification of the specification claims about it.

Modelling conventions:
- Channels are identified by natural numbers; sending on a channel is
  recorded as an explicit `Delivery` event.
- The correlation table `respMap : map[string]chan *iso8583.Message` is a
  function `String → Option Nat` (key to reply-channel id).
- External collaborators (the iso8583 codec `Pack`/`Unpack`, the VML
  header framing, `net.Conn`) are parameters or event streams: their
  outcomes are inputs to the embedded functions.
- Go `fmt.Sprintf "%06d"` is embedded as decimal digits left-padded
  with the character '0' to a minimum width of 6.
-/

namespace MoovIso8583

/-- Errors that flow through the client, mirroring the Go error values. -/
inductive GoErr where
  | connectionClosed
  | writeErr (s : String)
  | packErr (s : String)
  | dialErr (s : String)
  deriving DecidableEq

/-- An iso8583 message, reduced to what the client core touches:
field 11 (the STAN, empty string when unset, as `GetString` returns for an
unset field) and an opaque payload standing for all other fields. -/
structure Msg where
  field11 : String
  payload : String
  deriving DecidableEq

/-- `requestID` from client.go lines 155-161: the request id is the STAN
(field 11) of the message. -/
def requestID (m : Msg) : String := m.field11

/-- The correlation table `respMap`: correlation key to reply-channel id. -/
def Table : Type := String → Option Nat

/-- Go map assignment `m[k] = v` (client.go line 172). -/
def mapSet (t : Table) (k : String) (v : Nat) : Table :=
  fun x => if x = k then some v else t x

/-- Go `delete(m, k)` (client.go line 223). -/
def mapDel (t : Table) (k : String) : Table :=
  fun x => if x = k then none else t x

/-- Decimal digit characters of a natural number, most significant first,
as produced by Go integer formatting. -/
def decDigits (n : Nat) : List Char :=
  if _h : n < 10 then [Nat.digitChar n]
  else decDigits (n / 10) ++ [Nat.digitChar (n % 10)]
  termination_by n
  decreasing_by
    exact Nat.div_lt_self (by omega) (by omega)

/-- Go `fmt.Sprintf "%06d"` : the decimal digits left-padded with '0'
to a minimum width of 6 (client.go line 256). -/
def sprintf06 (n : Nat) : String :=
  String.mk (List.replicate (6 - (decDigits n).length) '0' ++ decDigits n)

/-- Decoder for decimal digit strings; used to show that the zero-padded
rendering is injective. -/
def decVal (cs : List Char) : Nat :=
  List.foldl (fun acc c => 10 * acc + (c.toNat - 48)) 0 cs

/-- `getSTAN` (client.go lines 248-257): increment the counter, wrap to 0
when it exceeds 999999, return the new counter and its 6-digit rendering.
The state is the `stan` field of the client. -/
def getSTAN (stan : Nat) : Nat × String :=
  let stan := stan + 1
  let stan := if stan > 999999 then 0 else stan
  (stan, sprintf06 stan)

/-- The counter value after `n` calls to `getSTAN` starting from `s`. -/
def stanIter (s : Nat) : Nat → Nat
  | 0 => s
  | n + 1 => (getSTAN (stanIter s n)).1

/-- `setMessageSTAN` (client.go lines 128-145): read field 11; when it is
empty generate a fresh STAN with `getSTAN`, otherwise keep the value read;
then write the value back into field 11.  Returns the new counter state
and the updated message. -/
def setMessageSTAN (stanCtr : Nat) (m : Msg) : Nat × Msg :=
  let stan := m.field11
  let p := if stan = "" then getSTAN stanCtr else (stanCtr, stan)
  (p.1, { m with field11 := p.2 })

/-- A connected transport (`net.Conn`); `closeErr` is what its `Close`
method returns. -/
structure Conn where
  closeErr : Option GoErr
  deriving DecidableEq

/-- The client state (client.go lines 19-26): the transport connection
(`none` when `Connect` has not assigned it), the correlation table
`respMap`, the `closing` flag and the STAN counter.  The requests channel
is modelled by the explicit request lists fed to `writeLoop`. -/
structure Client where
  conn : Option Conn
  respMap : Table
  closing : Bool
  stan : Nat

/-- `NewClient` (client.go lines 28-33): zero-valued `conn`, `closing`
and `stan`, empty `respMap`. -/
def NewClient : Client :=
  { conn := none, respMap := fun _ => none, closing := false, stan := 0 }

/-- `Connect` (client.go lines 35-46): on dial failure return the error
without assigning `conn`; on success assign `conn` (the loops are started
as goroutines and are modelled separately). -/
def ConnectGo (c : Client) (dialResult : Except String Conn) :
    Client × Option GoErr :=
  match dialResult with
  | .error e => (c, some (GoErr.dialErr e))
  | .ok conn => ({ c with conn := some conn }, none)

/-- Result of `Close`: either a Go runtime panic (nil pointer
dereference) or a normal return carrying the new state and the error. -/
inductive CloseOutcome where
  | panicked
  | returned (c : Client) (e : Option GoErr)

/-- `Close` (client.go lines 48-55): set the `closing` flag under the
mutex, then call `c.conn.Close()` unguarded.  When `conn` was never
assigned it is a nil interface and the method call panics. -/
def CloseGo (c : Client) : CloseOutcome :=
  let c := { c with closing := true }
  match c.conn with
  | none => CloseOutcome.panicked
  | some conn => CloseOutcome.returned c conn.closeErr

/-- The `request` struct (client.go lines 57-62): raw bytes (header plus
packed message), request id, reply channel and error channel. -/
structure Request where
  rawMessage : List Nat
  requestID : String
  replyCh : Nat
  errCh : Nat
  deriving DecidableEq

/-- What `Send` has done by the time it blocks on its select: the client
state, the (possibly STAN-populated) message, the request published to
`requestsCh` (`none` when `Send` returned early) and the immediate error
(`none` when the outcome is decided later by the loops). -/
structure SendResult where
  state : Client
  msg : Msg
  published : Option Request
  err : Option GoErr

/-- `Send` (client.go lines 65-126) up to the blocking select.  `pack`
is the external iso8583 codec, `encodeHeader` the external VML framing;
`replyCh` and `errCh` are the ids of the two freshly made channels.
Under `closing` it returns `ErrConnectionClosed` at once; otherwise it
populates the STAN, packs, frames, builds the request and publishes it. -/
def SendGo (pack : Msg → Except String (List Nat))
    (encodeHeader : Nat → List Nat) (replyCh errCh : Nat)
    (c : Client) (message : Msg) : SendResult :=
  if c.closing then
    { state := c, msg := message, published := none,
      err := some GoErr.connectionClosed }
  else
    let p := setMessageSTAN c.stan message
    let c := { c with stan := p.1 }
    let message := p.2
    match pack message with
    | .error e =>
        { state := c, msg := message, published := none,
          err := some (GoErr.packErr e) }
    | .ok packed =>
        let raw := encodeHeader packed.length ++ packed
        let req : Request :=
          { rawMessage := raw, requestID := requestID message,
            replyCh := replyCh, errCh := errCh }
        { state := c, msg := message, published := some req, err := none }

/-- A send on a channel, as observed by a blocked `Send` call: either a
reply message on a reply channel or an error on an error channel. -/
inductive Delivery where
  | reply (ch : Nat) (m : Msg)
  | errD (ch : Nat) (e : GoErr)
  deriving DecidableEq

/-- One iteration of `writeLoop` (client.go lines 170-180): register the
reply channel in `respMap` under the request id (plain map assignment),
then write to the connection; if the write fails, send the error on the
request error channel.  The entry is not deleted on failure and the loop
body ends, so the loop keeps consuming. -/
def writeLoopStep (t : Table) (req : Request) (writeErr : Option GoErr) :
    Table × List Delivery :=
  let t := mapSet t req.requestID req.replyCh
  match writeErr with
  | some e => (t, [Delivery.errD req.errCh e])
  | none => (t, [])

/-- `writeLoop` over a finite stream of requests paired with the outcome
`conn.Write` produces for each. -/
def writeLoopGo (t : Table) :
    List (Request × Option GoErr) → Table × List Delivery
  | [] => (t, [])
  | (req, we) :: rest =>
      let s := writeLoopStep t req we
      let r := writeLoopGo s.1 rest
      (r.1, s.2 ++ r.2)

/-- One inbound iteration of `readLoop` as seen from the loop body:
either one of the read/decode stages fails (header read, body read,
unpack, request id extraction — client.go lines 195, 202, 209, 214) or a
message is decoded. -/
inductive ReadEvent where
  | headerErr (s : String)
  | bodyErr (s : String)
  | unpackErr (s : String)
  | reqIDErr (s : String)
  | msg (m : Msg)
  deriving DecidableEq

/-- The `for` loop of `readLoop` (client.go lines 192-229).  `outerErr`
is the function-scoped `err` variable declared at line 189; every failing
stage inside the loop binds a fresh `err` with `:=` at line 195 (the
later `=` assignments at lines 202, 209, 214 hit that inner variable), so
a failure breaks out of the loop without touching `outerErr`.  A decoded
message is looked up in `respMap`: on a hit the message is sent on the
stored reply channel and the entry deleted; on a miss the `else` branch
is empty (a comment only) and the loop continues. -/
def readLoopIter (t : Table) (outerErr : Option GoErr) :
    List ReadEvent → Table × List Delivery × Option GoErr
  | [] => (t, [], outerErr)
  | ev :: rest =>
      match ev with
      | .headerErr _ => (t, [], outerErr)
      | .bodyErr _ => (t, [], outerErr)
      | .unpackErr _ => (t, [], outerErr)
      | .reqIDErr _ => (t, [], outerErr)
      | .msg message =>
          let reqID := requestID message
          match t reqID with
          | some replyCh =>
              let r := readLoopIter (mapDel t reqID) outerErr rest
              (r.1, Delivery.reply replyCh message :: r.2.1, r.2.2)
          | none => readLoopIter t outerErr rest

/-- What a whole `readLoop` run leaves behind: the final `respMap`, the
deliveries made to blocked callers and the lines printed to stderr. -/
structure ReadLoopResult where
  table : Table
  deliveries : List Delivery
  stderrLines : List String

/-- `readLoop` (client.go lines 184-243): run the loop with the outer
`err` starting at nil, then, under the mutex, print to stderr when the
outer `err` is non-nil and the client is not closing.  Nothing else
happens: `respMap` is not drained and no error is delivered to pending
entries (the comment at line 242 only says it should be). -/
def readLoopGo (closing : Bool) (t : Table) (evs : List ReadEvent) :
    ReadLoopResult :=
  let r := readLoopIter t none evs
  let lines :=
    if r.2.2.isSome && !closing then ["reading standard input"] else []
  { table := r.1, deliveries := r.2.1, stderrLines := lines }

/-! ### Lemmas about the decimal rendering -/

lemma decVal_append (cs : List Char) (c : Char) :
    decVal (cs ++ [c]) = 10 * decVal cs + (c.toNat - 48) := by
  simp [decVal, List.foldl_append]

lemma digitChar_toNat (d : Nat) (hd : d < 10) :
    (Nat.digitChar d).toNat - 48 = d := by
  interval_cases d <;> rfl

lemma decVal_decDigits (n : Nat) : decVal (decDigits n) = n := by
  induction n using Nat.strong_induction_on with
  | _ n ih =>
    rw [decDigits]
    by_cases h : n < 10
    · simp only [h, dif_pos]
      show decVal ([] ++ [Nat.digitChar n]) = n
      rw [decVal_append, digitChar_toNat n h]
      simp [decVal]
    · simp only [h, dif_neg, not_false_iff]
      rw [decVal_append, ih (n / 10) (Nat.div_lt_self (by omega) (by omega)),
        digitChar_toNat (n % 10) (Nat.mod_lt n (by omega))]
      omega

lemma decVal_pad (k : Nat) (cs : List Char) :
    decVal (List.replicate k '0' ++ cs) = decVal cs := by
  induction k with
  | zero => simp
  | succ k ih =>
    simpa [decVal, List.replicate_succ] using ih

lemma decVal_sprintf06 (n : Nat) : decVal (sprintf06 n).data = n := by
  show decVal (List.replicate (6 - (decDigits n).length) '0' ++ decDigits n) = n
  rw [decVal_pad, decVal_decDigits]

lemma sprintf06_injective {a b : Nat} (h : sprintf06 a = sprintf06 b) :
    a = b := by
  have := congrArg (fun s => decVal s.data) h
  simpa [decVal_sprintf06] using this

lemma decDigits_length_le (e : Nat) (he : 1 ≤ e) :
    ∀ n, n < 10 ^ e → (decDigits n).length ≤ e := by
  induction e with
  | zero => omega
  | succ e ih =>
    intro n hn
    rw [decDigits]
    by_cases h : n < 10
    · simp [h]
    · simp only [h, dif_neg, not_false_iff, List.length_append,
        List.length_singleton]
      have he1 : 1 ≤ e := by
        by_contra hc
        have : e = 0 := by omega
        subst this
        simp [pow_succ] at hn
        omega
      have : n / 10 < 10 ^ e := by
        rw [Nat.div_lt_iff_lt_mul (by omega)]
        calc n < 10 ^ (e + 1) := hn
        _ = 10 ^ e * 10 := by ring
      have := ih he1 (n / 10) this
      omega

lemma sprintf06_length (n : Nat) (hn : n < 1000000) :
    (sprintf06 n).length = 6 := by
  have h6 : (decDigits n).length ≤ 6 := by
    have : (1000000 : Nat) = 10 ^ 6 := by norm_num
    exact decDigits_length_le 6 (by omega) n (by omega)
  show (List.replicate (6 - (decDigits n).length) '0' ++ decDigits n).length = 6
  simp only [List.length_append, List.length_replicate]
  omega

lemma getSTAN_fst (s : Nat) :
    (getSTAN s).1 = if s + 1 > 999999 then 0 else s + 1 := rfl

lemma getSTAN_snd (s : Nat) : (getSTAN s).2 = sprintf06 (getSTAN s).1 := rfl

lemma stanIter_mod (s : Nat) (hs : s ≤ 999999) (n : Nat) :
    stanIter s n = (s + n) % 1000000 := by
  induction n with
  | zero =>
    show s = (s + 0) % 1000000
    omega
  | succ n ih =>
    show (getSTAN (stanIter s n)).1 = (s + (n + 1)) % 1000000
    rw [ih, getSTAN_fst]
    split <;> omega

/-! ### Claim theorems -/

/-- Claim C6: `getSTAN` increments the bounded counter by 1 per
allocation, wraps to 0 after exceeding 999999, and returns the value
rendered as a fixed-width zero-padded 6-digit string; under
single-threaded allocation the emitted strings are strictly cyclic over
the 1000000 possible values: two allocations at distinct positions
inside one cycle never emit the same string. -/
theorem claim_C6_getSTAN_strictly_cyclic :
    (∀ s, s < 999999 → (getSTAN s).1 = s + 1) ∧
    (getSTAN 999999).1 = 0 ∧
    (∀ s, (getSTAN s).2 = sprintf06 (getSTAN s).1) ∧
    (∀ s, ((getSTAN s).2).length = 6) ∧
    (∀ s i j, s ≤ 999999 → i < 1000000 → j < 1000000 → i ≠ j →
      (getSTAN (stanIter s i)).2 ≠ (getSTAN (stanIter s j)).2) := by
  refine ⟨?_, ?_, ?_, ?_, ?_⟩
  · intro s hs
    rw [getSTAN_fst]
    split <;> omega
  · rfl
  · intro s
    rfl
  · intro s
    rw [getSTAN_snd]
    apply sprintf06_length
    rw [getSTAN_fst]
    split <;> omega
  · intro s i j hs hi hj hij heq
    rw [getSTAN_snd, getSTAN_snd] at heq
    have hv : stanIter s (i + 1) = stanIter s (j + 1) := by
      have := sprintf06_injective heq
      exact this
    rw [stanIter_mod s hs (i + 1), stanIter_mod s hs (j + 1)] at hv
    omega

/-- Witness for C6: starting from counter 0, allocations 0 and 1 of the
first cycle emit distinct strings. -/
theorem claim_C6_witness :
    (0 : Nat) ≤ 999999 ∧ (0 : Nat) < 1000000 ∧ (1 : Nat) < 1000000 ∧
    (0 : Nat) ≠ 1 ∧
    (getSTAN (stanIter 0 0)).2 ≠ (getSTAN (stanIter 0 1)).2 :=
  ⟨by decide, by decide, by decide, by decide,
    claim_C6_getSTAN_strictly_cyclic.2.2.2.2 0 0 1 (by decide) (by decide)
      (by decide) (by decide)⟩

/-- Claim C7: `setMessageSTAN` populates field 11 from the sequence
generator exactly when the field is empty; a non-empty caller-supplied
value is used verbatim, the field and the counter are unchanged. -/
theorem claim_C7_setMessageSTAN_populates_iff_empty :
    ∀ (ctr : Nat) (m : Msg),
      (m.field11 ≠ "" → setMessageSTAN ctr m = (ctr, m)) ∧
      (m.field11 = "" →
        setMessageSTAN ctr m =
          ((getSTAN ctr).1, { m with field11 := (getSTAN ctr).2 })) := by
  intro ctr m
  constructor
  · intro h
    simp [setMessageSTAN, h]
  · intro h
    simp [setMessageSTAN, h]

/-- Witness for C7: a caller-supplied STAN "000777" is kept verbatim
with counter untouched; an empty field is populated from `getSTAN`. -/
theorem claim_C7_witness :
    ((Msg.mk "000777" "pay").field11 ≠ "" ∧
      setMessageSTAN 5 (Msg.mk "000777" "pay") = (5, Msg.mk "000777" "pay")) ∧
    ((Msg.mk "" "pay").field11 = "" ∧
      setMessageSTAN 5 (Msg.mk "" "pay") =
        ((getSTAN 5).1, { Msg.mk "" "pay" with field11 := (getSTAN 5).2 })) :=
  ⟨⟨by decide, (claim_C7_setMessageSTAN_populates_iff_empty 5 _).1 (by decide)⟩,
    ⟨rfl, (claim_C7_setMessageSTAN_populates_iff_empty 5 _).2 rfl⟩⟩

/-- Claim C5: when the closing flag is set, `Send` returns
`ErrConnectionClosed` immediately: the client state (counter and table
alike) is unchanged, the message is not mutated, nothing is packed or
framed, and no request is published to the writer. -/
theorem claim_C5_send_fails_fast_when_closing :
    ∀ (pack : Msg → Except String (List Nat)) (encodeHeader : Nat → List Nat)
      (replyCh errCh : Nat) (c : Client) (m : Msg),
      c.closing = true →
      SendGo pack encodeHeader replyCh errCh c m =
        { state := c, msg := m, published := none,
          err := some GoErr.connectionClosed } := by
  intro pack encodeHeader replyCh errCh c m h
  simp [SendGo, h]

/-- Witness for C5: a concrete closing client, with arbitrary codec and
framing functions, gets the immediate `connectionClosed` outcome. -/
theorem claim_C5_witness :
    ({ conn := none, respMap := fun _ => none, closing := true,
        stan := 0 } : Client).closing = true ∧
    SendGo (fun _ => Except.ok []) (fun _ => []) 1 2
        { conn := none, respMap := fun _ => none, closing := true, stan := 0 }
        (Msg.mk "" "p") =
      { state := { conn := none, respMap := fun _ => none,
                   closing := true, stan := 0 },
        msg := Msg.mk "" "p", published := none,
        err := some GoErr.connectionClosed } :=
  ⟨rfl, claim_C5_send_fails_fast_when_closing _ _ 1 2 _ _ rfl⟩

/-- Claim C2: the reader loop delivers a decoded inbound message only
through the entry that the table holds under the correlation key of that
very message: whenever `Delivery.reply ch m` is produced during a run of
the loop, the table at the start of the run mapped `requestID m` to `ch`
(the table only shrinks during the run).  Hence each caller, registered
under its own key, receives only replies carrying that key, whatever the
arrival order. -/
theorem claim_C2_reply_key_matches_registration :
    ∀ (t : Table) (oe : Option GoErr) (evs : List ReadEvent) (ch : Nat)
      (m : Msg),
      Delivery.reply ch m ∈ (readLoopIter t oe evs).2.1 →
      t (requestID m) = some ch := by
  intro t oe evs
  induction evs generalizing t with
  | nil =>
    intro ch m h
    simp [readLoopIter] at h
  | cons ev rest ih =>
    intro ch m h
    cases ev with
    | headerErr s => simp [readLoopIter] at h
    | bodyErr s => simp [readLoopIter] at h
    | unpackErr s => simp [readLoopIter] at h
    | reqIDErr s => simp [readLoopIter] at h
    | msg message =>
      simp only [readLoopIter] at h
      cases hfind : t (requestID message) with
      | some replyCh =>
        rw [hfind] at h
        simp only [List.mem_cons] at h
        rcases h with h | h
        · rcases Delivery.reply.injEq .. |>.mp h with ⟨hch, hm⟩
          subst hch
          subst hm
          exact hfind
        · have hmem := ih (mapDel t (requestID message)) ch m h
          by_cases hx : requestID m = requestID message
          · exfalso
            rw [mapDel] at hmem
            simp [hx] at hmem
          · rw [mapDel] at hmem
            simpa [hx] using hmem
      | none =>
        rw [hfind] at h
        exact ih t ch m h

/-- Witness for C2: with "000123" registered to channel 7, the inbound
reply with field 11 "000123" is delivered on channel 7, and the starting
table indeed held its key at channel 7. -/
theorem claim_C2_witness :
    Delivery.reply 7 (Msg.mk "000123" "resp") ∈
      (readLoopIter (mapSet (fun _ => none) "000123" 7) none
        [ReadEvent.msg (Msg.mk "000123" "resp")]).2.1 ∧
    (mapSet (fun _ => none) "000123" 7)
        (requestID (Msg.mk "000123" "resp")) = some 7 :=
  ⟨by decide,
    claim_C2_reply_key_matches_registration
      (mapSet (fun _ => none) "000123" 7) none
      [ReadEvent.msg (Msg.mk "000123" "resp")] 7 (Msg.mk "000123" "resp")
      (by decide)⟩

/-- Claim C9: the function-scoped `err` of `readLoop` is never assigned
(every failure inside the loop binds a fresh shadowing local), so after
the loop it is still nil, the stderr-reporting branch is unreachable and
the cause of termination is discarded: the loop returns the outer `err`
exactly as it received it, and no run of `readLoop` ever prints. -/
theorem claim_C9_outer_err_always_nil :
    (∀ (t : Table) (oe : Option GoErr) (evs : List ReadEvent),
      (readLoopIter t oe evs).2.2 = oe) ∧
    (∀ (closing : Bool) (t : Table) (evs : List ReadEvent),
      (readLoopGo closing t evs).stderrLines = []) := by
  have key : ∀ (evs : List ReadEvent) (t : Table) (oe : Option GoErr),
      (readLoopIter t oe evs).2.2 = oe := by
    intro evs
    induction evs with
    | nil => intro t oe; rfl
    | cons ev rest ih =>
      intro t oe
      cases ev with
      | headerErr s => rfl
      | bodyErr s => rfl
      | unpackErr s => rfl
      | reqIDErr s => rfl
      | msg message =>
        simp only [readLoopIter]
        cases hfind : t (requestID message) with
        | some replyCh => simp [hfind, ih]
        | none => simp [hfind, ih]
  refine ⟨fun t oe evs => key evs t oe, fun closing t evs => ?_⟩
  simp [readLoopGo, key]

/-- Claim C1 (code bug): the shutdown path of `readLoop` does not drain
the correlation table.  Concretely: with one pending entry ("000123" on
reply channel 7) and the read failing after `Close` set the closing
flag, the loop run delivers nothing at all — in particular no
`connectionClosed` error — and the entry is still in the table when the
goroutine exits, so the blocked `Send` waits forever. -/
theorem claim_C1_shutdown_delivers_nothing :
    (readLoopGo true (mapSet (fun _ => none) "000123" 7)
        [ReadEvent.headerErr "use of closed network connection"]).deliveries
      = [] ∧
    (readLoopGo true (mapSet (fun _ => none) "000123" 7)
        [ReadEvent.headerErr "use of closed network connection"]).table
        "000123" = some 7 := by
  exact ⟨rfl, by decide⟩

/-- Claim C3 (code bug): when a write fails, `writeLoop` delivers the
error on the request error channel and keeps consuming further requests,
but it does not remove the pending entry from `respMap`: after a failed
write for "000001" followed by a successful write for "000002", both
entries are present in the table. -/
theorem claim_C3_write_failure_keeps_entry :
    (writeLoopGo (fun _ => none)
        [({ rawMessage := [2, 0], requestID := "000001", replyCh := 1,
            errCh := 2 }, some (GoErr.writeErr "broken pipe")),
         ({ rawMessage := [2, 0], requestID := "000002", replyCh := 3,
            errCh := 4 }, none)]).2
      = [Delivery.errD 2 (GoErr.writeErr "broken pipe")] ∧
    (writeLoopGo (fun _ => none)
        [({ rawMessage := [2, 0], requestID := "000001", replyCh := 1,
            errCh := 2 }, some (GoErr.writeErr "broken pipe")),
         ({ rawMessage := [2, 0], requestID := "000002", replyCh := 3,
            errCh := 4 }, none)]).1 "000001" = some 1 ∧
    (writeLoopGo (fun _ => none)
        [({ rawMessage := [2, 0], requestID := "000001", replyCh := 1,
            errCh := 2 }, some (GoErr.writeErr "broken pipe")),
         ({ rawMessage := [2, 0], requestID := "000002", replyCh := 3,
            errCh := 4 }, none)]).1 "000002" = some 3 := by
  refine ⟨by decide, by decide, by decide⟩

/-- Counterexample to claim C4 as stated: registering a second request
under a key already present does overwrite the existing pending entry.
With "000001" pending on reply channel 1, one `writeLoop` iteration for
a second request with the same id and reply channel 2 leaves the table
mapping "000001" to channel 2, orphaning channel 1. -/
theorem claim_C4_counterexample :
    (mapSet (fun _ => none) "000001" 1) "000001" = some 1 ∧
    (writeLoopStep (mapSet (fun _ => none) "000001" 1)
        { rawMessage := [2, 0], requestID := "000001", replyCh := 2,
          errCh := 3 } none).1 "000001" = some 2 := by
  exact ⟨by decide, by decide⟩

/-- Claim C4 (amended): a `writeLoop` iteration registers the incoming
request under its id by plain map assignment, so afterwards the table
maps that key to the new reply channel regardless of any entry
previously held there — a duplicate key overwrites and orphans the
earlier pending entry. -/
theorem claim_C4_amended_insert_overwrites :
    ∀ (t : Table) (req : Request) (we : Option GoErr),
      (writeLoopStep t req we).1 req.requestID = some req.replyCh := by
  intro t req we
  cases we <;> simp [writeLoopStep, mapSet]

/-- Claim C8 (code bug): an inbound message whose key matches no entry
is not an error — the loop leaves the table alone and keeps reading, and
no pending caller is affected — but nothing records it: the unmatched
branch of the source is empty, so the run produces no stderr line and no
delivery concerning the unmatched message; the message vanishes without
a trace point.  Here the unmatched "999999" is followed by a matched
"000124", which is still delivered normally. -/
theorem claim_C8_unmatched_dropped_without_trace :
    (readLoopGo false (mapSet (fun _ => none) "000124" 5)
        [ReadEvent.msg (Msg.mk "999999" "unsolicited"),
         ReadEvent.msg (Msg.mk "000124" "reply")]).stderrLines = [] ∧
    (readLoopGo false (mapSet (fun _ => none) "000124" 5)
        [ReadEvent.msg (Msg.mk "999999" "unsolicited"),
         ReadEvent.msg (Msg.mk "000124" "reply")]).deliveries
      = [Delivery.reply 5 (Msg.mk "000124" "reply")] ∧
    (readLoopGo false (mapSet (fun _ => none) "000124" 5)
        [ReadEvent.msg (Msg.mk "999999" "unsolicited"),
         ReadEvent.msg (Msg.mk "000124" "reply")]).table "999999" = none := by
  refine ⟨by decide, by decide, by decide⟩

/-- Claim C10: `Close` dereferences a nil connection unless a prior
`Connect` succeeded: a fresh client has no connection and `Close` on it
panics; `Close` panics exactly on clients whose connection is unset,
returns normally (with the transport close error) when it is set, and a
successful `Connect` is what sets it. -/
theorem claim_C10_close_requires_connect :
    NewClient.conn = none ∧
    (∀ c : Client, c.conn = none → CloseGo c = CloseOutcome.panicked) ∧
    (∀ (c : Client) (conn : Conn), c.conn = some conn →
      CloseGo c = CloseOutcome.returned { c with closing := true }
        conn.closeErr) ∧
    (∀ (c : Client) (conn : Conn),
      (ConnectGo c (Except.ok conn)).1.conn = some conn) := by
  refine ⟨rfl, ?_, ?_, ?_⟩
  · intro c h
    simp [CloseGo, h]
  · intro c conn h
    simp [CloseGo, h]
  · intro c conn
    rfl

/-- Witness for C10: the fresh client has an unset connection and
closing it panics (nil pointer dereference). -/
theorem claim_C10_witness :
    NewClient.conn = none ∧ CloseGo NewClient = CloseOutcome.panicked :=
  ⟨rfl, claim_C10_close_requires_connect.2.1 NewClient rfl⟩

end MoovIso8583
